import Mathlib

/-!
Shallow embedding of `src/nmr-spectra-converter/test_output/compare.py`.

Numeric values produced by the script are modelled as exact real numbers,
extended with an explicit NaN constructor (`PyFloat.nan`) wherever the
script can produce `float("nan")` or an undefined correlation; IEEE
comparison semantics (every ordered comparison with NaN is false) are
modelled explicitly.  A Python statistics dict is modelled as a record
whose metric fields are `Option PyFloat`: `none` means the key is absent
from the dict, so a `KeyError` on lookup is visible in the model.
-/

namespace NMRCompare

/-- A float value as the script manipulates it: an ordinary (real) number
or NaN. -/
inductive PyFloat where
  | val (x : ℝ)
  | nan

/-- Python `f < t` for a float `f` that may be NaN and a numeric literal
`t`: any comparison with NaN is false. -/
def PyFloat.ltR : PyFloat → ℝ → Prop
  | .val x, t => x < t
  | .nan, _ => False

/-- Python `f > t` for a float `f` that may be NaN and a numeric literal
`t`: any comparison with NaN is false. -/
def PyFloat.gtR : PyFloat → ℝ → Prop
  | .val x, t => t < x
  | .nan, _ => False

/-- The constant `FDATA_SIZE = 512`: number of float32 header values. -/
def FDATA_SIZE : ℕ := 512

/-- The constant `HEADER_BYTES = FDATA_SIZE * 4 = 2048`. -/
def HEADER_BYTES : ℕ := FDATA_SIZE * 4

/-- A raw byte, as read from the binary file. -/
abbrev Byte : Type := Fin 256

/-- The `FDATA_NAMES` sparse index-to-name table of the script. -/
def FDATA_NAMES (i : ℕ) : Option String :=
  match i with
  | 0 => some "FDMAGIC"
  | 1 => some "FDFLTFORMAT"
  | 2 => some "FDFLTORDER"
  | 15 => some "FDSIZE"
  | 24 => some "FD2DPHASE"
  | 55 => some "FDDMXVAL"
  | 56 => some "FDDMXFLAG"
  | 57 => some "FDDELTATR"
  | 99 => some "FDSPECNUM"
  | 106 => some "FDREALSIZE"
  | 111 => some "FDQUADFLAG"
  | 199 => some "FDTEMPERATURE"
  | 219 => some "FDFILECOUNT"
  | 222 => some "FDPIPEFLAG"
  | _ => none

/-- Python `FDATA_NAMES.get(i, f"[{i}]")`: the symbolic name of header position
`i`, falling back to the bracketed index. -/
def fdName (i : ℕ) : String :=
  (FDATA_NAMES i).getD ("[" ++ toString i ++ "]")

/-- Failure modes of `read_nmrpipe`: the explicit `ValueError` for a file
shorter than the 2048-byte header (reporting the byte count), and the
`ValueError` numpy raises when the payload byte count is not a multiple
of the 4-byte element size. -/
inductive FormatError where
  | tooSmall (nbytes : ℕ)
  | notMultipleOfElementSize
deriving DecidableEq

/-- Split a byte list into consecutive groups of 4 (one group per 32-bit
float); a trailing group of fewer than 4 bytes is never produced. -/
def chunks4 {α : Type} : List α → List (α × α × α × α)
  | a :: b :: c :: d :: rest => (a, b, c, d) :: chunks4 rest
  | _ => []

/-- Decode a byte list as consecutive 32-bit floats using the decode
function `f32` (one value per 4 bytes), as `np.frombuffer(·, dtype=np.float32)`
does.  The bit-level IEEE-754 decoding is abstracted as the parameter
`f32`. -/
def frombuffer (f32 : Byte → Byte → Byte → Byte → ℝ) (raw : List Byte) : List ℝ :=
  (chunks4 raw).map (fun g => f32 g.1 g.2.1 g.2.2.1 g.2.2.2)

/-- Function `read_nmrpipe`: check the minimum size, then decode the first 2048
bytes as the 512-value header and the rest as the payload.  numpy's
`frombuffer` raises when the remaining byte count is not a multiple of 4;
that is modelled as the `notMultipleOfElementSize` error. -/
def read_nmrpipe (f32 : Byte → Byte → Byte → Byte → ℝ) (raw : List Byte) :
    Except FormatError (List ℝ × List ℝ) :=
  if raw.length < HEADER_BYTES then
    .error (.tooSmall raw.length)
  else if (raw.length - HEADER_BYTES) % 4 ≠ 0 then
    .error .notMultipleOfElementSize
  else
    .ok (frombuffer f32 (raw.take HEADER_BYTES), frombuffer f32 (raw.drop HEADER_BYTES))

open Classical in
/-- Function `compare_headers`: walk positions `0..511`, report `(i, name, va, vb)`
for every position whose two values differ. -/
noncomputable def compare_headers (hdr_a hdr_b : Fin FDATA_SIZE → ℝ) :
    List (ℕ × String × ℝ × ℝ) :=
  (List.finRange FDATA_SIZE).filterMap (fun i =>
    if hdr_a i ≠ hdr_b i then some (i.val, fdName i.val, hdr_a i, hdr_b i) else none)

/-- Model of `np.max` of a list (the script only applies it to non-empty arrays). -/
noncomputable def lmax : List ℝ → ℝ
  | [] => 0
  | x :: xs => xs.foldl max x

/-- Model of `np.mean` of a list: sum divided by length. -/
noncomputable def lmean (l : List ℝ) : ℝ := l.sum / l.length

/-- Model of `np.std` of a list: population standard deviation
`sqrt(mean((x - mean)^2))`. -/
noncomputable def npstd (l : List ℝ) : ℝ :=
  Real.sqrt (lmean (l.map (fun x => (x - lmean l) ^ 2)))

/-- The centered cross-sum `Σ (aᵢ - mean a) * (bᵢ - mean b)` underlying
the covariance of two equal-length arrays. -/
noncomputable def covSum (a b : List ℝ) : ℝ :=
  (List.zipWith (fun x y => (x - lmean a) * (y - lmean b)) a b).sum

/-- Model of `np.corrcoef(a, b)[0, 1]`: the Pearson correlation coefficient.  The
normalisation of `np.cov` cancels between numerator and denominator, so
the coefficient equals the centered cross-sum over the square root of the
product of the centered self-sums. -/
noncomputable def corrcoef (a b : List ℝ) : ℝ :=
  covSum a b / Real.sqrt (covSum a a * covSum b b)

/-- The statistics dict built by `compare_data`.  `len_a`/`len_b` are
always set; each metric field is `some` a float when the corresponding
dict key is set and `none` when the key is absent. -/
structure DataStats where
  len_a : ℕ
  len_b : ℕ
  max_abs_diff : Option PyFloat
  mean_abs_diff : Option PyFloat
  rms_diff : Option PyFloat
  max_rel_diff : Option PyFloat
  rms_rel_diff : Option PyFloat
  correlation : Option PyFloat

/-- The slice `data_a[:min_len]` where `min_len = min(len(data_a), len(data_b))`. -/
def ovA (data_a data_b : List ℝ) : List ℝ :=
  data_a.take (min data_a.length data_b.length)

/-- The slice `data_b[:min_len]` where `min_len = min(len(data_a), len(data_b))`. -/
def ovB (data_a data_b : List ℝ) : List ℝ :=
  data_b.take (min data_a.length data_b.length)

/-- The array `diff = a - b` on the overlapping prefixes. -/
noncomputable def dDiff (data_a data_b : List ℝ) : List ℝ :=
  List.zipWith (fun x y => x - y) (ovA data_a data_b) (ovB data_a data_b)

/-- The array `abs_diff = np.abs(diff)`. -/
noncomputable def absDiff (data_a data_b : List ℝ) : List ℝ :=
  (dDiff data_a data_b).map (fun x => |x|)

/-- The amplitude `max_amp = max(np.max(np.abs(a)), np.max(np.abs(b)), 1e-30)`. -/
noncomputable def maxAmp (data_a data_b : List ℝ) : ℝ :=
  max (max (lmax ((ovA data_a data_b).map (fun x => |x|)))
           (lmax ((ovB data_a data_b).map (fun x => |x|)))) 1e-30

open Classical in
/-- Function `compare_data`: build the statistics dict.  When the overlap is empty
the four listed metrics are set to NaN and the function returns early, so
the keys `max_rel_diff` and `rms_rel_diff` are absent (`none`).
Otherwise every metric key is set; the correlation is NaN unless both
overlapping prefixes have positive standard deviation. -/
noncomputable def compare_data (data_a data_b : List ℝ) : DataStats :=
  if min data_a.length data_b.length = 0 then
    { len_a := data_a.length
      len_b := data_b.length
      max_abs_diff := some .nan
      mean_abs_diff := some .nan
      rms_diff := some .nan
      max_rel_diff := none
      rms_rel_diff := none
      correlation := some .nan }
  else
    { len_a := data_a.length
      len_b := data_b.length
      max_abs_diff := some (.val (lmax (absDiff data_a data_b)))
      mean_abs_diff := some (.val (lmean (absDiff data_a data_b)))
      rms_diff := some (.val (Real.sqrt (lmean ((dDiff data_a data_b).map (fun x => x ^ 2)))))
      max_rel_diff := some (.val (lmax (absDiff data_a data_b) / maxAmp data_a data_b))
      rms_rel_diff := some (.val (Real.sqrt (lmean ((dDiff data_a data_b).map (fun x => x ^ 2)))
                                  / maxAmp data_a data_b))
      correlation := some (if npstd (ovA data_a data_b) > 0 ∧ npstd (ovB data_a data_b) > 0
                           then .val (corrcoef (ovA data_a data_b) (ovB data_a data_b))
                           else .nan) }

/-- The three-way verdict of the judgment block in `main`. -/
inductive Verdict where
  | PASS
  | WARN
  | FAIL
deriving DecidableEq

open Classical in
/-- The pass/fail judgment block of `main`:
`if stats["correlation"] < 0.999: FAIL elif stats["max_rel_diff"] > 0.01: WARN else: PASS`.
A dict lookup of an absent key raises `KeyError`, modelled as the error
branch of `Except`. -/
noncomputable def judge (stats : DataStats) : Except String Verdict :=
  match stats.correlation with
  | none => .error "KeyError"
  | some c =>
    if c.ltR 0.999 then .ok .FAIL
    else
      match stats.max_rel_diff with
      | none => .error "KeyError"
      | some m => if m.gtR 0.01 then .ok .WARN else .ok .PASS

/-- Projection used to state numeric facts about the correlation field:
the real value held by `correlation` (0 when the key is absent or NaN). -/
def corrVal (s : DataStats) : ℝ :=
  match s.correlation with
  | some (.val x) => x
  | _ => 0

/-! ### Helper lemmas -/

lemma chunks4_length {α : Type} : ∀ l : List α, (chunks4 l).length = l.length / 4
  | [] => by simp [chunks4]
  | [_] => by simp [chunks4]
  | [_, _] => by simp [chunks4]
  | [_, _, _] => by simp [chunks4]
  | _ :: _ :: _ :: _ :: rest => by
      simp only [chunks4, List.length_cons, chunks4_length rest]
      omega

lemma frombuffer_length (f32 : Byte → Byte → Byte → Byte → ℝ) (raw : List Byte) :
    (frombuffer f32 raw).length = raw.length / 4 := by
  simp [frombuffer, chunks4_length]

/-! ### C5: parsing -/

/-- C5: `read_nmrpipe` fails with a format error reporting the actual byte
count on every input shorter than 2048 bytes, fails with a format error
when the payload byte count is not divisible by 4, and on every input of
at least 2048 bytes with aligned payload returns the 512 values decoded
from the first 2048 bytes together with the `(length − 2048) / 4` values
decoded from the rest. -/
theorem read_nmrpipe_spec :
    (∀ (f32 : Byte → Byte → Byte → Byte → ℝ) (raw : List Byte),
      raw.length < 2048 → read_nmrpipe f32 raw = .error (.tooSmall raw.length)) ∧
    (∀ (f32 : Byte → Byte → Byte → Byte → ℝ) (raw : List Byte),
      2048 ≤ raw.length → (raw.length - 2048) % 4 ≠ 0 →
      read_nmrpipe f32 raw = .error .notMultipleOfElementSize) ∧
    (∀ (f32 : Byte → Byte → Byte → Byte → ℝ) (raw : List Byte),
      2048 ≤ raw.length → (raw.length - 2048) % 4 = 0 →
      read_nmrpipe f32 raw =
        .ok (frombuffer f32 (raw.take HEADER_BYTES), frombuffer f32 (raw.drop HEADER_BYTES)) ∧
      (frombuffer f32 (raw.take HEADER_BYTES)).length = 512 ∧
      (frombuffer f32 (raw.drop HEADER_BYTES)).length = (raw.length - 2048) / 4) := by
  have hb : HEADER_BYTES = 2048 := rfl
  refine ⟨?_, ?_, ?_⟩
  · intro f32 raw h
    rw [read_nmrpipe, if_pos (by omega)]
  · intro f32 raw h1 h2
    rw [read_nmrpipe, if_neg (by omega), if_pos (by rw [hb]; exact h2)]
  · intro f32 raw h1 h2
    refine ⟨?_, ?_, ?_⟩
    · rw [read_nmrpipe, if_neg (by omega), if_neg (by rw [hb]; simpa using h2)]
    · rw [frombuffer_length, List.length_take, hb]
      omega
    · rw [frombuffer_length, List.length_drop, hb]

/-- Witness for C5 at concrete inputs: the empty file and a 2048-byte file
of zero bytes. -/
theorem read_nmrpipe_spec_witness :
    read_nmrpipe (fun _ _ _ _ => (0 : ℝ)) [] = .error (.tooSmall ([] : List Byte).length) ∧
    (read_nmrpipe (fun _ _ _ _ => (0 : ℝ)) (List.replicate 2048 (0 : Byte)) =
      .ok (frombuffer (fun _ _ _ _ => (0 : ℝ)) ((List.replicate 2048 (0 : Byte)).take HEADER_BYTES),
           frombuffer (fun _ _ _ _ => (0 : ℝ)) ((List.replicate 2048 (0 : Byte)).drop HEADER_BYTES)) ∧
    (frombuffer (fun _ _ _ _ => (0 : ℝ))
        ((List.replicate 2048 (0 : Byte)).take HEADER_BYTES)).length = 512 ∧
    (frombuffer (fun _ _ _ _ => (0 : ℝ))
        ((List.replicate 2048 (0 : Byte)).drop HEADER_BYTES)).length =
      ((List.replicate 2048 (0 : Byte)).length - 2048) / 4) :=
  ⟨read_nmrpipe_spec.1 _ [] (by simp),
   read_nmrpipe_spec.2.2 _ (List.replicate 2048 (0 : Byte))
     (by rw [List.length_replicate]) (by rw [List.length_replicate])⟩

/-! ### Judgment lemmas -/

lemma judge_of_ltR {s : DataStats} {c : PyFloat} (hcor : s.correlation = some c)
    (hc : c.ltR 0.999) : judge s = .ok .FAIL := by
  simp only [judge, hcor]
  rw [if_pos hc]

lemma judge_of_not_ltR_gtR {s : DataStats} {c m : PyFloat} (hcor : s.correlation = some c)
    (hc : ¬ c.ltR 0.999) (hm : s.max_rel_diff = some m) (hgt : m.gtR 0.01) :
    judge s = .ok .WARN := by
  simp only [judge, hcor, hm]
  rw [if_neg hc, if_pos hgt]

lemma judge_of_not_ltR_not_gtR {s : DataStats} {c m : PyFloat} (hcor : s.correlation = some c)
    (hc : ¬ c.ltR 0.999) (hm : s.max_rel_diff = some m) (hgt : ¬ m.gtR 0.01) :
    judge s = .ok .PASS := by
  simp only [judge, hcor, hm]
  rw [if_neg hc, if_neg hgt]

lemma judge_of_missing_rel {s : DataStats} {c : PyFloat} (hcor : s.correlation = some c)
    (hc : ¬ c.ltR 0.999) (hm : s.max_rel_diff = none) :
    judge s = .error "KeyError" := by
  simp only [judge, hcor, hm]
  rw [if_neg hc]

/-! ### C4: strict threshold boundaries -/

/-- C4: the verdict thresholds are strict: correlation exactly `0.999` is
not FAIL, correlation `0.9989` is FAIL; in the non-FAIL branch a
`max_rel_diff` of exactly `0.01` gives PASS, and `0.0101` gives WARN. -/
theorem judge_thresholds :
    (∀ s : DataStats, s.correlation = some (.val 0.999) → judge s ≠ .ok .FAIL) ∧
    (∀ s : DataStats, s.correlation = some (.val 0.9989) → judge s = .ok .FAIL) ∧
    (∀ (s : DataStats) (c : PyFloat), s.correlation = some c → ¬ c.ltR 0.999 →
      s.max_rel_diff = some (.val 0.01) → judge s = .ok .PASS) ∧
    (∀ (s : DataStats) (c : PyFloat), s.correlation = some c → ¬ c.ltR 0.999 →
      s.max_rel_diff = some (.val 0.0101) → judge s = .ok .WARN) := by
  refine ⟨?_, ?_, ?_, ?_⟩
  · intro s h
    simp only [judge, h, PyFloat.ltR]
    rw [if_neg (lt_irrefl _)]
    cases hm : s.max_rel_diff with
    | none => simp
    | some m => split <;> (try split) <;> simp
  · intro s h
    exact judge_of_ltR h (by simp only [PyFloat.ltR]; norm_num)
  · intro s c hcor hc hm
    exact judge_of_not_ltR_not_gtR hcor hc hm (by simp only [PyFloat.gtR]; norm_num)
  · intro s c hcor hc hm
    exact judge_of_not_ltR_gtR hcor hc hm (by simp only [PyFloat.gtR]; norm_num)

/-- Witness for C4 at four concrete `DataStats` records. -/
theorem judge_thresholds_witness :
    judge ⟨0, 0, none, none, none, none, none, some (.val 0.999)⟩ ≠ .ok .FAIL ∧
    judge ⟨0, 0, none, none, none, none, none, some (.val 0.9989)⟩ = .ok .FAIL ∧
    judge ⟨0, 0, none, none, none, some (.val 0.01), none, some (.val 1)⟩ = .ok .PASS ∧
    judge ⟨0, 0, none, none, none, some (.val 0.0101), none, some (.val 1)⟩ = .ok .WARN :=
  ⟨judge_thresholds.1 _ rfl,
   judge_thresholds.2.1 _ rfl,
   judge_thresholds.2.2.1 _ _ rfl (by simp only [PyFloat.ltR]; norm_num) rfl,
   judge_thresholds.2.2.2 _ _ rfl (by simp only [PyFloat.ltR]; norm_num) rfl⟩

/-! ### compare_data unfolding lemmas -/

lemma compare_data_degenerate {a b : List ℝ} (h : min a.length b.length = 0) :
    compare_data a b =
      { len_a := a.length
        len_b := b.length
        max_abs_diff := some .nan
        mean_abs_diff := some .nan
        rms_diff := some .nan
        max_rel_diff := none
        rms_rel_diff := none
        correlation := some .nan } := by
  rw [compare_data, if_pos h]

lemma compare_data_pos {a b : List ℝ} (h : min a.length b.length ≠ 0) :
    compare_data a b =
      { len_a := a.length
        len_b := b.length
        max_abs_diff := some (.val (lmax (absDiff a b)))
        mean_abs_diff := some (.val (lmean (absDiff a b)))
        rms_diff := some (.val (Real.sqrt (lmean ((dDiff a b).map (fun x => x ^ 2)))))
        max_rel_diff := some (.val (lmax (absDiff a b) / maxAmp a b))
        rms_rel_diff := some (.val (Real.sqrt (lmean ((dDiff a b).map (fun x => x ^ 2)))
                                    / maxAmp a b))
        correlation := some (if npstd (ovA a b) > 0 ∧ npstd (ovB a b) > 0
                             then .val (corrcoef (ovA a b) (ovB a b))
                             else .nan) } := by
  rw [compare_data, if_neg h]

/-! ### C2: degenerate statistics for an empty payload -/

/-- C2 (at the failing input): `compare_data [] [1,2,3]` sets
`max_abs_diff`, `mean_abs_diff`, `rms_diff` and `correlation` to NaN, but
the keys `max_rel_diff` and `rms_rel_diff` are absent from the returned
dict (`none`), not set to NaN as the claim states. -/
theorem compare_data_empty_metrics :
    compare_data ([] : List ℝ) [1, 2, 3] =
      { len_a := 0
        len_b := 3
        max_abs_diff := some .nan
        mean_abs_diff := some .nan
        rms_diff := some .nan
        max_rel_diff := none
        rms_rel_diff := none
        correlation := some .nan } := by
  rw [compare_data_degenerate] <;> simp

/-! ### C3: the judgment on a degenerate DataStats raises -/

/-- C3 (at the failing input): on the degenerate statistics dict produced
for an empty payload, the judgment block of `main` looks up the absent
key `max_rel_diff` and raises `KeyError` instead of returning a verdict. -/
theorem judge_degenerate_raises :
    judge (compare_data ([] : List ℝ) [1, 2, 3]) = .error "KeyError" := by
  rw [compare_data_degenerate (by simp)]
  exact judge_of_missing_rel rfl (by simp [PyFloat.ltR]) rfl

/-! ### C1: FAIL versus NaN correlation -/

lemma compare_data_ones :
    compare_data [(1 : ℝ), 1] [(1 : ℝ), 1] =
      { len_a := 2
        len_b := 2
        max_abs_diff := some (.val 0)
        mean_abs_diff := some (.val 0)
        rms_diff := some (.val 0)
        max_rel_diff := some (.val 0)
        rms_rel_diff := some (.val 0)
        correlation := some .nan } := by
  rw [compare_data_pos (by simp)]
  norm_num [ovA, ovB, dDiff, absDiff, lmean, lmax, maxAmp, npstd, Real.sqrt_zero]

/-- C1 counterexample: for the payload pair `[1,1]`, `[1,1]` (non-empty
overlap) the correlation is NaN, yet the verdict is PASS, not FAIL:
`nan < 0.999` is false in IEEE comparison, so the FAIL branch is never
taken on a NaN correlation. -/
theorem corr_nan_verdict_cex :
    (compare_data [(1 : ℝ), 1] [(1 : ℝ), 1]).correlation = some .nan ∧
    judge (compare_data [(1 : ℝ), 1] [(1 : ℝ), 1]) = .ok .PASS := by
  rw [compare_data_ones]
  exact ⟨rfl, judge_of_not_ltR_not_gtR rfl (by simp [PyFloat.ltR]) rfl
    (by simp only [PyFloat.gtR]; norm_num)⟩

lemma judge_FAIL_iff_aux {s : DataStats} {cf : PyFloat} {r : ℝ}
    (hcor : s.correlation = some cf) (hm : s.max_rel_diff = some (.val r)) :
    (judge s = .ok .FAIL ↔ ∃ c : ℝ, s.correlation = some (.val c) ∧ c < 0.999) := by
  cases cf with
  | nan =>
    constructor
    · intro hj
      exfalso
      by_cases hg : (PyFloat.val r).gtR 0.01
      · rw [judge_of_not_ltR_gtR hcor (by simp [PyFloat.ltR]) hm hg] at hj
        exact Except.noConfusion hj (fun h => Verdict.noConfusion h)
      · rw [judge_of_not_ltR_not_gtR hcor (by simp [PyFloat.ltR]) hm hg] at hj
        exact Except.noConfusion hj (fun h => Verdict.noConfusion h)
    · rintro ⟨c, hc, -⟩
      rw [hcor] at hc
      exact PyFloat.noConfusion (Option.some.inj hc)
  | val c =>
    by_cases hc : c < 0.999
    · simp only [judge_of_ltR hcor (show (PyFloat.val c).ltR 0.999 from hc), true_iff]
      exact ⟨c, hcor, hc⟩
    · constructor
      · intro hj
        exfalso
        by_cases hg : (PyFloat.val r).gtR 0.01
        · rw [judge_of_not_ltR_gtR hcor hc hm hg] at hj
          exact Except.noConfusion hj (fun h => Verdict.noConfusion h)
        · rw [judge_of_not_ltR_not_gtR hcor hc hm hg] at hj
          exact Except.noConfusion hj (fun h => Verdict.noConfusion h)
      · rintro ⟨c', hc', hlt⟩
        rw [hcor] at hc'
        cases PyFloat.val.inj (Option.some.inj hc')
        exact absurd hlt hc

/-- C1 as amended: for every payload pair with non-empty overlap, the
verdict is FAIL if and only if the correlation is an ordinary number less
than `0.999`; a NaN correlation never takes the FAIL branch (it yields
PASS or WARN), because every IEEE comparison with NaN is false. -/
theorem judge_FAIL_iff (a b : List ℝ) (h : min a.length b.length ≠ 0) :
    (judge (compare_data a b) = .ok .FAIL ↔
      ∃ c : ℝ, (compare_data a b).correlation = some (.val c) ∧ c < 0.999) := by
  have hs := compare_data_pos h
  have hcor : (compare_data a b).correlation =
      some (if npstd (ovA a b) > 0 ∧ npstd (ovB a b) > 0
            then PyFloat.val (corrcoef (ovA a b) (ovB a b))
            else PyFloat.nan) := by
    rw [hs]
  exact judge_FAIL_iff_aux hcor (by rw [hs])

/-- Witness for C1 as amended, at the payload pair `[1,2]`, `[1,2]`. -/
theorem judge_FAIL_iff_witness :
    (judge (compare_data [(1 : ℝ), 2] [(1 : ℝ), 2]) = .ok .FAIL ↔
      ∃ c : ℝ, (compare_data [(1 : ℝ), 2] [(1 : ℝ), 2]).correlation = some (.val c) ∧
        c < 0.999) :=
  judge_FAIL_iff [(1 : ℝ), 2] [(1 : ℝ), 2] (by simp)

/-! ### C10: NaN correlation from a zero-variance prefix -/

/-- C10: for every payload pair with non-empty overlap in which either
overlapping prefix has zero standard deviation, the correlation is NaN,
the relative-difference metrics are ordinary numbers, and the verdict is
PASS or WARN — never FAIL. -/
theorem zero_variance_verdict (a b : List ℝ) (h : min a.length b.length ≠ 0)
    (hstd : npstd (ovA a b) = 0 ∨ npstd (ovB a b) = 0) :
    (compare_data a b).correlation = some .nan ∧
    (∃ r : ℝ, (compare_data a b).max_rel_diff = some (.val r)) ∧
    (∃ r : ℝ, (compare_data a b).rms_rel_diff = some (.val r)) ∧
    (judge (compare_data a b) = .ok .PASS ∨ judge (compare_data a b) = .ok .WARN) := by
  have hs := compare_data_pos h
  have hcond : ¬ (npstd (ovA a b) > 0 ∧ npstd (ovB a b) > 0) := by
    rcases hstd with h0 | h0 <;> rw [h0] <;> simp
  have hcor : (compare_data a b).correlation = some .nan := by
    rw [hs]
    simp only [if_neg hcond]
  refine ⟨hcor, ⟨_, by rw [hs]⟩, ⟨_, by rw [hs]⟩, ?_⟩
  have hm : (compare_data a b).max_rel_diff =
      some (.val (lmax (absDiff a b) / maxAmp a b)) := by rw [hs]
  by_cases hg : (PyFloat.val (lmax (absDiff a b) / maxAmp a b)).gtR 0.01
  · exact Or.inr (judge_of_not_ltR_gtR hcor (by simp [PyFloat.ltR]) hm hg)
  · exact Or.inl (judge_of_not_ltR_not_gtR hcor (by simp [PyFloat.ltR]) hm hg)

/-- Witness for C10 at the payload pair `[1,1]`, `[1,2]`: the first
overlapping prefix is constant. -/
theorem zero_variance_verdict_witness :
    (compare_data [(1 : ℝ), 1] [(1 : ℝ), 2]).correlation = some .nan ∧
    (∃ r : ℝ, (compare_data [(1 : ℝ), 1] [(1 : ℝ), 2]).max_rel_diff = some (.val r)) ∧
    (∃ r : ℝ, (compare_data [(1 : ℝ), 1] [(1 : ℝ), 2]).rms_rel_diff = some (.val r)) ∧
    (judge (compare_data [(1 : ℝ), 1] [(1 : ℝ), 2]) = .ok .PASS ∨
      judge (compare_data [(1 : ℝ), 1] [(1 : ℝ), 2]) = .ok .WARN) :=
  zero_variance_verdict [(1 : ℝ), 1] [(1 : ℝ), 2] (by simp)
    (Or.inl (by norm_num [npstd, ovA, lmean, Real.sqrt_zero]))

/-! ### C7: statistics depend only on the overlapping prefixes -/

lemma ovA_take (a b : List ℝ) :
    ovA (a.take (min a.length b.length)) (b.take (min a.length b.length)) = ovA a b := by
  unfold ovA
  rw [List.length_take, List.length_take, List.take_take]
  congr 1
  omega

lemma ovB_take (a b : List ℝ) :
    ovB (a.take (min a.length b.length)) (b.take (min a.length b.length)) = ovB a b := by
  unfold ovB
  rw [List.length_take, List.length_take, List.take_take]
  congr 1
  omega

/-- C7: `compare_data` computes every statistic only over the first
`min(lenA, lenB)` elements of each payload — truncating both payloads to
that length changes nothing but the recorded lengths — and on a length-5
payload whose first 3 elements equal a length-3 payload all difference
metrics are 0 while `len_a`, `len_b` record the original lengths. -/
theorem compare_data_truncation :
    (∀ a b : List ℝ, compare_data a b =
      { compare_data (a.take (min a.length b.length)) (b.take (min a.length b.length)) with
        len_a := a.length, len_b := b.length }) ∧
    (∀ a b : List ℝ, a.length = 5 → b.length = 3 → a.take 3 = b →
      (compare_data a b).max_abs_diff = some (.val 0) ∧
      (compare_data a b).mean_abs_diff = some (.val 0) ∧
      (compare_data a b).rms_diff = some (.val 0) ∧
      (compare_data a b).len_a = 5 ∧
      (compare_data a b).len_b = 3) := by
  constructor
  · intro a b
    by_cases hm : min a.length b.length = 0
    · have h0 : min (a.take (min a.length b.length)).length
          (b.take (min a.length b.length)).length = 0 := by
        rw [List.length_take, List.length_take]
        omega
      rw [compare_data_degenerate hm, compare_data_degenerate h0]
    · have h0 : min (a.take (min a.length b.length)).length
          (b.take (min a.length b.length)).length ≠ 0 := by
        rw [List.length_take, List.length_take]
        omega
      have hA := ovA_take a b
      have hB := ovB_take a b
      have hd : dDiff (a.take (min a.length b.length)) (b.take (min a.length b.length)) =
          dDiff a b := by
        simp only [dDiff]
        rw [hA, hB]
      have habs : absDiff (a.take (min a.length b.length)) (b.take (min a.length b.length)) =
          absDiff a b := by
        simp only [absDiff]
        rw [hd]
      have hamp : maxAmp (a.take (min a.length b.length)) (b.take (min a.length b.length)) =
          maxAmp a b := by
        simp only [maxAmp]
        rw [hA, hB]
      rw [compare_data_pos hm, compare_data_pos h0, habs, hd, hamp, hA, hB]
  · intro a b ha hb hab
    have hm : min a.length b.length = 3 := by
      omega
    have hovA : ovA a b = b := by
      rw [ovA, hm, hab]
    have hovB : ovB a b = b := by
      rw [ovB, hm, List.take_of_length_le (le_of_eq hb)]
    have hd : dDiff a b = b.map (fun x => x - x) := by
      rw [dDiff, hovA, hovB, List.zipWith_same]
    obtain ⟨x, y, z, rfl⟩ := List.length_eq_three.mp hb
    rw [compare_data_pos (by omega)]
    norm_num [absDiff, hd, lmax, lmean, ha, Real.sqrt_zero]

/-- Witness for C7's truncation instance at `[1,2,3,4,5]` and `[1,2,3]`. -/
theorem compare_data_truncation_witness :
    (compare_data [(1 : ℝ), 2, 3, 4, 5] [(1 : ℝ), 2, 3]).max_abs_diff = some (.val 0) ∧
    (compare_data [(1 : ℝ), 2, 3, 4, 5] [(1 : ℝ), 2, 3]).mean_abs_diff = some (.val 0) ∧
    (compare_data [(1 : ℝ), 2, 3, 4, 5] [(1 : ℝ), 2, 3]).rms_diff = some (.val 0) ∧
    (compare_data [(1 : ℝ), 2, 3, 4, 5] [(1 : ℝ), 2, 3]).len_a = 5 ∧
    (compare_data [(1 : ℝ), 2, 3, 4, 5] [(1 : ℝ), 2, 3]).len_b = 3 :=
  compare_data_truncation.2 [(1 : ℝ), 2, 3, 4, 5] [(1 : ℝ), 2, 3] rfl rfl rfl

/-! ### C9: symmetry under argument swap -/

lemma ovA_swap (a b : List ℝ) : ovA b a = ovB a b := by
  unfold ovA ovB
  rw [min_comm]

lemma ovB_swap (a b : List ℝ) : ovB b a = ovA a b := by
  unfold ovA ovB
  rw [min_comm]

lemma absDiff_swap (a b : List ℝ) : absDiff b a = absDiff a b := by
  unfold absDiff dDiff
  rw [ovA_swap a b, ovB_swap a b, List.zipWith_comm, List.map_zipWith, List.map_zipWith]
  have he : (fun (x : ℝ) (y : ℝ) => |y - x|) = fun x y => |x - y| := by
    funext x y
    exact abs_sub_comm y x
  rw [he]

lemma sqDiff_swap (a b : List ℝ) :
    (dDiff b a).map (fun x => x ^ 2) = (dDiff a b).map (fun x => x ^ 2) := by
  unfold dDiff
  rw [ovA_swap a b, ovB_swap a b, List.zipWith_comm, List.map_zipWith, List.map_zipWith]
  have he : (fun (x : ℝ) (y : ℝ) => (y - x) ^ 2) = fun x y => (x - y) ^ 2 := by
    funext x y
    ring
  rw [he]

lemma covSum_swap (a b : List ℝ) : covSum b a = covSum a b := by
  unfold covSum
  rw [List.zipWith_comm]
  have he : (fun (x : ℝ) (y : ℝ) => (y - lmean b) * (x - lmean a)) =
      fun x y => (x - lmean a) * (y - lmean b) := by
    funext x y
    ring
  rw [he]

lemma corrcoef_swap (a b : List ℝ) : corrcoef b a = corrcoef a b := by
  simp only [corrcoef, covSum_swap]
  rw [mul_comm]

/-- C9: swapping the payload order leaves `max_abs_diff`, `mean_abs_diff`,
`rms_diff` and `correlation` unchanged, while `len_a` and `len_b` swap. -/
theorem compare_data_swap (a b : List ℝ) :
    (compare_data b a).max_abs_diff = (compare_data a b).max_abs_diff ∧
    (compare_data b a).mean_abs_diff = (compare_data a b).mean_abs_diff ∧
    (compare_data b a).rms_diff = (compare_data a b).rms_diff ∧
    (compare_data b a).correlation = (compare_data a b).correlation ∧
    (compare_data b a).len_a = (compare_data a b).len_b ∧
    (compare_data b a).len_b = (compare_data a b).len_a := by
  by_cases hm : min a.length b.length = 0
  · rw [compare_data_degenerate hm, compare_data_degenerate (by omega)]
    exact ⟨rfl, rfl, rfl, rfl, rfl, rfl⟩
  · rw [compare_data_pos hm, compare_data_pos (show min b.length a.length ≠ 0 by omega)]
    refine ⟨?_, ?_, ?_, ?_, rfl, rfl⟩
    · rw [absDiff_swap]
    · rw [absDiff_swap]
    · rw [sqDiff_swap]
    · rw [ovA_swap a b, ovB_swap a b, corrcoef_swap (ovA a b) (ovB a b)]
      rw [if_congr (and_comm) rfl rfl]

/-! ### C6: header comparison -/

/-- C6: `compare_headers` reports a diff entry exactly for the positions
`0..511` whose two (decoded) values are unequal, every reported entry is of
that form, the entries are in ascending position order, and the diff list
is empty iff the two headers are identical. -/
theorem compare_headers_spec (ha hb : Fin FDATA_SIZE → ℝ) :
    (∀ i : Fin FDATA_SIZE,
      ((i.val, fdName i.val, ha i, hb i) ∈ compare_headers ha hb ↔ ha i ≠ hb i)) ∧
    (∀ e ∈ compare_headers ha hb,
      ∃ i : Fin FDATA_SIZE, e = (i.val, fdName i.val, ha i, hb i) ∧ ha i ≠ hb i) ∧
    ((compare_headers ha hb).map (fun e => e.1)).Pairwise (· < ·) ∧
    (compare_headers ha hb = [] ↔ ha = hb) := by
  refine ⟨?_, ?_, ?_, ?_⟩
  · intro i
    constructor
    · intro hmem
      rcases List.mem_filterMap.mp hmem with ⟨j, -, hj⟩
      by_cases h : ha j ≠ hb j
      · rw [if_pos h] at hj
        have hji : j.val = i.val := congrArg Prod.fst (Option.some.inj hj)
        rwa [Fin.val_injective hji] at h
      · rw [if_neg h] at hj
        exact Option.noConfusion hj
    · intro hne
      exact List.mem_filterMap.mpr ⟨i, List.mem_finRange i, by rw [if_pos hne]⟩
  · intro e he
    rcases List.mem_filterMap.mp he with ⟨j, -, hj⟩
    by_cases h : ha j ≠ hb j
    · rw [if_pos h] at hj
      exact ⟨j, (Option.some.inj hj).symm, h⟩
    · rw [if_neg h] at hj
      exact Option.noConfusion hj
  · refine List.pairwise_map.mpr (List.Pairwise.filterMap _ ?_ (List.pairwise_lt_finRange _))
    intro j j' hlt e hej e' hej'
    have h1 : e.1 = j.val := by
      by_cases h : ha j ≠ hb j
      · rw [if_pos h, Option.mem_def] at hej
        rw [← Option.some.inj hej]
      · rw [if_neg h] at hej
        exact Option.noConfusion (Option.mem_def.mp hej)
    have h2 : e'.1 = j'.val := by
      by_cases h : ha j' ≠ hb j'
      · rw [if_pos h, Option.mem_def] at hej'
        rw [← Option.some.inj hej']
      · rw [if_neg h] at hej'
        exact Option.noConfusion (Option.mem_def.mp hej')
    rw [h1, h2]
    exact hlt
  · unfold compare_headers
    rw [List.filterMap_eq_nil_iff]
    constructor
    · intro h
      funext i
      have hi := h i (List.mem_finRange i)
      by_contra hne
      rw [if_pos hne] at hi
      exact Option.noConfusion hi
    · intro h i _
      rw [h]
      simp

/-- Witness for C6: two identical all-zero headers yield the empty diff
list. -/
theorem compare_headers_spec_witness :
    compare_headers (fun _ => (0 : ℝ)) (fun _ => (0 : ℝ)) = [] :=
  (compare_headers_spec (fun _ => (0 : ℝ)) (fun _ => (0 : ℝ))).2.2.2.mpr rfl

/-! ### C8: the statistical formulas and the reference example -/

lemma le_foldl_max (l : List ℝ) : ∀ x y : ℝ, (y ≤ x ∨ y ∈ l) → y ≤ l.foldl max x := by
  induction l with
  | nil =>
    intro x y h
    rcases h with h | h
    · exact h
    · simp at h
  | cons z zs ih =>
    intro x y h
    rw [List.foldl_cons]
    apply ih
    rcases h with h | h
    · exact Or.inl (le_trans h (le_max_left x z))
    · rcases List.mem_cons.mp h with h | h
      · exact Or.inl (h ▸ le_max_right x z)
      · exact Or.inr h

lemma foldl_max_mem (l : List ℝ) : ∀ x : ℝ, l.foldl max x = x ∨ l.foldl max x ∈ l := by
  induction l with
  | nil =>
    intro x
    exact Or.inl rfl
  | cons z zs ih =>
    intro x
    rw [List.foldl_cons]
    rcases ih (max x z) with h | h
    · rcases max_choice x z with hm | hm
      · exact Or.inl (h.trans hm)
      · exact Or.inr (by rw [h, hm]; exact List.mem_cons_self z zs)
    · exact Or.inr (List.mem_cons_of_mem z h)

lemma lmax_mem {l : List ℝ} (h : l ≠ []) : lmax l ∈ l := by
  cases l with
  | nil => exact absurd rfl h
  | cons x xs =>
    simp only [lmax]
    rcases foldl_max_mem xs x with h1 | h1
    · rw [h1]
      exact List.mem_cons_self x xs
    · exact List.mem_cons_of_mem x h1

lemma le_lmax {l : List ℝ} {y : ℝ} (hy : y ∈ l) : y ≤ lmax l := by
  cases l with
  | nil => simp at hy
  | cons x xs =>
    simp only [lmax]
    rcases List.mem_cons.mp hy with h | h
    · exact le_foldl_max xs x y (Or.inl (le_of_eq h))
    · exact le_foldl_max xs x y (Or.inr h)

lemma sqrt7_gt : (2.645751 : ℝ) < Real.sqrt 7 := by
  rw [Real.lt_sqrt (by norm_num)]
  norm_num

lemma sqrt7_lt : Real.sqrt 7 < (2.645752 : ℝ) := by
  rw [Real.sqrt_lt' (by norm_num)]
  norm_num

lemma corr_bounds : (0.9827 : ℝ) < 13 * Real.sqrt 7 / 35 ∧
    13 * Real.sqrt 7 / 35 < (0.98271 : ℝ) := by
  constructor
  · nlinarith [sqrt7_gt]
  · nlinarith [sqrt7_lt]

lemma npstd_pos_a : 0 < npstd [(1 : ℝ), 2, 3, 4] := by
  rw [npstd, Real.sqrt_pos]
  norm_num [lmean]

lemma npstd_pos_b : 0 < npstd [(1 : ℝ), 2, 3, 5] := by
  rw [npstd, Real.sqrt_pos]
  norm_num [lmean]

lemma corrcoef_example :
    corrcoef [(1 : ℝ), 2, 3, 4] [(1 : ℝ), 2, 3, 5] = 13 * Real.sqrt 7 / 35 := by
  have hab : covSum [(1 : ℝ), 2, 3, 4] [(1 : ℝ), 2, 3, 5] = 13 / 2 := by
    norm_num [covSum, lmean]
  have haa : covSum [(1 : ℝ), 2, 3, 4] [(1 : ℝ), 2, 3, 4] = 5 := by
    norm_num [covSum, lmean]
  have hbb : covSum [(1 : ℝ), 2, 3, 5] [(1 : ℝ), 2, 3, 5] = 35 / 4 := by
    norm_num [covSum, lmean]
  rw [corrcoef, hab, haa, hbb]
  rw [show (5 : ℝ) * (35 / 4) = (5 / 2) ^ 2 * 7 by norm_num]
  rw [Real.sqrt_mul (by positivity), Real.sqrt_sq (by norm_num)]
  have h7 : 0 < Real.sqrt 7 := Real.sqrt_pos.mpr (by norm_num)
  have h77 : Real.sqrt 7 * Real.sqrt 7 = 7 := Real.mul_self_sqrt (by norm_num)
  field_simp
  nlinarith [h77]

lemma compare_data_example :
    compare_data [(1 : ℝ), 2, 3, 4] [(1 : ℝ), 2, 3, 5] =
      { len_a := 4
        len_b := 4
        max_abs_diff := some (.val 1)
        mean_abs_diff := some (.val (1 / 4))
        rms_diff := some (.val (1 / 2))
        max_rel_diff := some (.val (1 / 5))
        rms_rel_diff := some (.val (1 / 10))
        correlation := some (.val (13 * Real.sqrt 7 / 35)) } := by
  have hA : ovA [(1 : ℝ), 2, 3, 4] [(1 : ℝ), 2, 3, 5] = [1, 2, 3, 4] := by
    norm_num [ovA]
  have hB : ovB [(1 : ℝ), 2, 3, 4] [(1 : ℝ), 2, 3, 5] = [1, 2, 3, 5] := by
    norm_num [ovB]
  have hd : dDiff [(1 : ℝ), 2, 3, 4] [(1 : ℝ), 2, 3, 5] = [0, 0, 0, -1] := by
    rw [dDiff, hA, hB]
    norm_num
  have habs : absDiff [(1 : ℝ), 2, 3, 4] [(1 : ℝ), 2, 3, 5] = [0, 0, 0, 1] := by
    rw [absDiff, hd]
    norm_num
  have hsq : (dDiff [(1 : ℝ), 2, 3, 4] [(1 : ℝ), 2, 3, 5]).map (fun x => x ^ 2) =
      [0, 0, 0, 1] := by
    rw [hd]
    norm_num
  have hmax : lmax [(0 : ℝ), 0, 0, 1] = 1 := by
    simp only [lmax, List.foldl_cons, List.foldl_nil]
    rw [max_self, max_self, max_eq_right (by norm_num : (0 : ℝ) ≤ 1)]
  have hmla : lmax ([(1 : ℝ), 2, 3, 4].map (fun x => |x|)) = 4 := by
    have hm : [(1 : ℝ), 2, 3, 4].map (fun x => |x|) = [1, 2, 3, 4] := by
      norm_num [abs_of_nonneg]
    rw [hm]
    simp only [lmax, List.foldl_cons, List.foldl_nil]
    rw [max_eq_right (by norm_num : (1 : ℝ) ≤ 2), max_eq_right (by norm_num : (2 : ℝ) ≤ 3),
      max_eq_right (by norm_num : (3 : ℝ) ≤ 4)]
  have hmlb : lmax ([(1 : ℝ), 2, 3, 5].map (fun x => |x|)) = 5 := by
    have hm : [(1 : ℝ), 2, 3, 5].map (fun x => |x|) = [1, 2, 3, 5] := by
      norm_num [abs_of_nonneg]
    rw [hm]
    simp only [lmax, List.foldl_cons, List.foldl_nil]
    rw [max_eq_right (by norm_num : (1 : ℝ) ≤ 2), max_eq_right (by norm_num : (2 : ℝ) ≤ 3),
      max_eq_right (by norm_num : (3 : ℝ) ≤ 5)]
  have hamp : maxAmp [(1 : ℝ), 2, 3, 4] [(1 : ℝ), 2, 3, 5] = 5 := by
    rw [maxAmp, hA, hB, hmla, hmlb, max_eq_right (by norm_num : (4 : ℝ) ≤ 5),
      max_eq_left (by norm_num : (1e-30 : ℝ) ≤ 5)]
  have hlm : lmean [(0 : ℝ), 0, 0, 1] = 1 / 4 := by
    norm_num [lmean]
  have hsqrt : Real.sqrt (1 / 4) = 1 / 2 := by
    rw [show (1 / 4 : ℝ) = (1 / 2) ^ 2 by norm_num, Real.sqrt_sq (by norm_num)]
  rw [compare_data_pos (by norm_num), habs, hsq, hA, hB,
    if_pos (And.intro npstd_pos_a npstd_pos_b), corrcoef_example, hmax, hamp, hlm, hsqrt]
  have h1 : (1 : ℝ) / 2 / 5 = 1 / 10 := by norm_num
  rw [h1]
  simp

/-- C8 counterexample: for `a = [1,2,3,4]`, `b = [1,2,3,5]` the Pearson
correlation computed by `compare_data` lies strictly between `0.9827` and
`0.98271`, so it is not within `0.002` of the claimed reference value
`0.98058`. -/
theorem corr_reference_cex :
    (0.9827 : ℝ) < corrVal (compare_data [(1 : ℝ), 2, 3, 4] [(1 : ℝ), 2, 3, 5]) ∧
    corrVal (compare_data [(1 : ℝ), 2, 3, 4] [(1 : ℝ), 2, 3, 5]) < (0.98271 : ℝ) ∧
    ¬ (|corrVal (compare_data [(1 : ℝ), 2, 3, 4] [(1 : ℝ), 2, 3, 5]) - 0.98058| < 0.002) := by
  rw [compare_data_example]
  have hv : corrVal
      { len_a := 4
        len_b := 4
        max_abs_diff := some (.val 1)
        mean_abs_diff := some (.val (1 / 4))
        rms_diff := some (.val (1 / 2))
        max_rel_diff := some (.val (1 / 5))
        rms_rel_diff := some (.val (1 / 10))
        correlation := some (.val (13 * Real.sqrt 7 / 35)) } = 13 * Real.sqrt 7 / 35 := rfl
  rw [hv]
  refine ⟨corr_bounds.1, corr_bounds.2, ?_⟩
  intro habs
  have h2 := abs_lt.mp habs
  have h3 := corr_bounds.1
  linarith [h2.2]

/-- C8 as amended: for every payload pair with non-empty overlap,
`max_abs_diff` is a member of and an upper bound of the pointwise absolute
differences, `mean_abs_diff` is their sum over their count, `rms_diff` is
the square root of the mean squared difference, `max_amplitude` bounds
every `|a[i]|`, `|b[i]|` and the floor `1e-30`, and the relative metrics
are the absolute metrics divided by it; for `a = [1,2,3,4]`,
`b = [1,2,3,5]` this gives `max_abs_diff = 1`, `mean_abs_diff = 0.25`,
`rms_diff = 0.5` and Pearson correlation `13·√7/35 ≈ 0.98271` (not
`0.98058` as claimed). -/
theorem compare_data_formulas :
    (∀ a b : List ℝ, min a.length b.length ≠ 0 →
      (compare_data a b).max_abs_diff = some (.val (lmax (absDiff a b))) ∧
      lmax (absDiff a b) ∈ absDiff a b ∧
      (∀ y ∈ absDiff a b, y ≤ lmax (absDiff a b)) ∧
      (compare_data a b).mean_abs_diff =
        some (.val ((absDiff a b).sum / ((absDiff a b).length : ℝ))) ∧
      (compare_data a b).rms_diff =
        some (.val (Real.sqrt (((dDiff a b).map (fun x => x ^ 2)).sum /
          (((dDiff a b).map (fun x => x ^ 2)).length : ℝ)))) ∧
      (compare_data a b).max_rel_diff =
        some (.val (lmax (absDiff a b) / maxAmp a b)) ∧
      (compare_data a b).rms_rel_diff =
        some (.val (Real.sqrt (lmean ((dDiff a b).map (fun x => x ^ 2))) / maxAmp a b)) ∧
      (∀ y ∈ (ovA a b).map (fun x => |x|), y ≤ maxAmp a b) ∧
      (∀ y ∈ (ovB a b).map (fun x => |x|), y ≤ maxAmp a b) ∧
      (1e-30 : ℝ) ≤ maxAmp a b) ∧
    (compare_data [(1 : ℝ), 2, 3, 4] [(1 : ℝ), 2, 3, 5]).max_abs_diff = some (.val 1) ∧
    (compare_data [(1 : ℝ), 2, 3, 4] [(1 : ℝ), 2, 3, 5]).mean_abs_diff = some (.val 0.25) ∧
    (compare_data [(1 : ℝ), 2, 3, 4] [(1 : ℝ), 2, 3, 5]).rms_diff = some (.val 0.5) ∧
    (compare_data [(1 : ℝ), 2, 3, 4] [(1 : ℝ), 2, 3, 5]).correlation =
      some (.val (13 * Real.sqrt 7 / 35)) ∧
    (0.9827 : ℝ) < 13 * Real.sqrt 7 / 35 ∧
    13 * Real.sqrt 7 / 35 < (0.98271 : ℝ) := by
  refine ⟨?_, ?_, ?_, ?_, ?_, corr_bounds.1, corr_bounds.2⟩
  · intro a b h
    have hpos := compare_data_pos h
    have hlen : (absDiff a b).length = min a.length b.length := by
      rw [absDiff, List.length_map, dDiff, List.length_zipWith, ovA, ovB,
        List.length_take, List.length_take]
      omega
    have hne : absDiff a b ≠ [] := by
      intro hnil
      rw [hnil] at hlen
      exact h (by simpa using hlen.symm)
    refine ⟨by rw [hpos], lmax_mem hne, fun y hy => le_lmax hy,
      by rw [hpos]; rfl, by rw [hpos]; rfl, by rw [hpos], by rw [hpos], ?_, ?_, ?_⟩
    · intro y hy
      exact le_trans (le_lmax hy) (le_trans (le_max_left _ _) (le_max_left _ _))
    · intro y hy
      exact le_trans (le_lmax hy) (le_trans (le_max_right _ _) (le_max_left _ _))
    · exact le_max_right _ _
  · rw [compare_data_example]
  · rw [compare_data_example]
    simp only [Option.some.injEq, PyFloat.val.injEq]
    norm_num
  · rw [compare_data_example]
    simp only [Option.some.injEq, PyFloat.val.injEq]
    norm_num
  · rw [compare_data_example]

/-- Witness for C8's universally quantified part at the payload pair
`[0,1]`, `[0,1]`. -/
theorem compare_data_formulas_witness :
    (compare_data [(0 : ℝ), 1] [(0 : ℝ), 1]).max_abs_diff =
      some (.val (lmax (absDiff [(0 : ℝ), 1] [(0 : ℝ), 1]))) ∧
    lmax (absDiff [(0 : ℝ), 1] [(0 : ℝ), 1]) ∈ absDiff [(0 : ℝ), 1] [(0 : ℝ), 1] ∧
    (∀ y ∈ absDiff [(0 : ℝ), 1] [(0 : ℝ), 1],
      y ≤ lmax (absDiff [(0 : ℝ), 1] [(0 : ℝ), 1])) ∧
    (compare_data [(0 : ℝ), 1] [(0 : ℝ), 1]).mean_abs_diff =
      some (.val ((absDiff [(0 : ℝ), 1] [(0 : ℝ), 1]).sum /
        ((absDiff [(0 : ℝ), 1] [(0 : ℝ), 1]).length : ℝ))) ∧
    (compare_data [(0 : ℝ), 1] [(0 : ℝ), 1]).rms_diff =
      some (.val (Real.sqrt (((dDiff [(0 : ℝ), 1] [(0 : ℝ), 1]).map (fun x => x ^ 2)).sum /
        (((dDiff [(0 : ℝ), 1] [(0 : ℝ), 1]).map (fun x => x ^ 2)).length : ℝ)))) ∧
    (compare_data [(0 : ℝ), 1] [(0 : ℝ), 1]).max_rel_diff =
      some (.val (lmax (absDiff [(0 : ℝ), 1] [(0 : ℝ), 1]) /
        maxAmp [(0 : ℝ), 1] [(0 : ℝ), 1])) ∧
    (compare_data [(0 : ℝ), 1] [(0 : ℝ), 1]).rms_rel_diff =
      some (.val (Real.sqrt (lmean ((dDiff [(0 : ℝ), 1] [(0 : ℝ), 1]).map (fun x => x ^ 2))) /
        maxAmp [(0 : ℝ), 1] [(0 : ℝ), 1])) ∧
    (∀ y ∈ (ovA [(0 : ℝ), 1] [(0 : ℝ), 1]).map (fun x => |x|),
      y ≤ maxAmp [(0 : ℝ), 1] [(0 : ℝ), 1]) ∧
    (∀ y ∈ (ovB [(0 : ℝ), 1] [(0 : ℝ), 1]).map (fun x => |x|),
      y ≤ maxAmp [(0 : ℝ), 1] [(0 : ℝ), 1]) ∧
    (1e-30 : ℝ) ≤ maxAmp [(0 : ℝ), 1] [(0 : ℝ), 1] :=
  compare_data_formulas.1 [(0 : ℝ), 1] [(0 : ℝ), 1] (by simp)

end NMRCompare
